import Mathlib

/-!
# Meshes tutorial program (`Mar-6th/Mar-6th/Mar-6th.cpp`)

A shallow embedding of the Direct3D 9 sample: the globals become a record, every
function becomes a pure function from the globals (and the answers of the outside
world) to the new globals and the list of calls it made, in program order.

Conventions of the embedding

* The outside world (Direct3D, D3DX, the file system, `operator new`, the message
  queue, the clock) is a record of answers, `Env`, `Frame` and `Queue`.  A library
  call whose result the program tests may fail.  A call whose result the program
  ignores is taken to succeed as documented (`CloneMeshFVF` returns a mesh of the
  format asked for), unless its arguments alone make it fail (`strcat_s` into a
  buffer that is too small).
* Every call the program makes is recorded as an `Event`, so that "is called",
  "exactly once", "before" are statements about lists.
* COM objects are named by the call that creates them (`Obj`); every creating call
  is made at most once per run, so two different calls never share a name.
* A `for( DWORD i = 0; i < n; i++ )` loop is `forLoop n body`.
* An array read `p[i]` goes through `readAt`; reading through `NULL` or past the
  allocated length is recorded as `Event.outOfBounds` and the loop goes on with
  the next index.
* `float` data is only ever copied or stored by the program; a float is its
  32-bit pattern, and the three vectors and matrices the program computes with
  `cosf`, `sinf` and D3DX are kept symbolic.
-/

namespace Meshes

/-! ## Data -/

/-- The `HRESULT` values the program returns or tests. -/
inductive HRESULT where
  | S_OK
  | E_FAIL
  | E_OUTOFMEMORY
  deriving DecidableEq, Repr

/-- The `SUCCEEDED` test of an `HRESULT` (non-negative code). -/
def SUCCEEDED (hr : HRESULT) : Bool :=
  match hr with
  | .S_OK => true
  | .E_FAIL => false
  | .E_OUTOFMEMORY => false

/-- The `FAILED` test of an `HRESULT` (negative code). -/
def FAILED (hr : HRESULT) : Bool := !SUCCEEDED hr

/-- A `float`, as its IEEE-754 single-precision bit pattern. -/
abbrev FLOAT := Nat

/-- Bit pattern of `0.0f`. -/
def f0 : FLOAT := 0

/-- Bit pattern of `1.0f`. -/
def f1 : FLOAT := 0x3F800000

/-- Bit pattern of `10000.0f`. -/
def f10000 : FLOAT := 0x461C4000

/-- The colour record `D3DCOLORVALUE`. -/
structure D3DCOLORVALUE where
  r : FLOAT
  g : FLOAT
  b : FLOAT
  a : FLOAT
  deriving DecidableEq, Repr, Inhabited

/-- The material record `D3DMATERIAL9`. -/
structure D3DMATERIAL9 where
  Diffuse : D3DCOLORVALUE
  Ambient : D3DCOLORVALUE
  Specular : D3DCOLORVALUE
  Emissive : D3DCOLORVALUE
  Power : FLOAT
  deriving DecidableEq, Repr, Inhabited

/-- One entry of the material buffer D3DX fills: `D3DXMATERIAL`.  The file name is
a `CHAR*`, `none` for `NULL`; one `Char` stands for one `CHAR`. -/
structure D3DXMATERIAL where
  MatD3D : D3DMATERIAL9
  pTextureFilename : Option String
  deriving DecidableEq, Repr, Inhabited

/-- The two copies of the mesh globals: `g_pMesh`, ... and `g_pMesh2`, ... -/
inductive Slot where
  | first
  | second
  deriving DecidableEq, Repr

/-- COM objects and buffers, named by the call that created them. -/
inductive Obj where
  | d3d
  | device
  | mesh (slot : Slot)
  | clone (slot : Slot)
  | buffer (slot : Slot)
  | texture (slot : Slot) (i : Nat)
  deriving DecidableEq, Repr

/-- An `ID3DXMesh`: the object and the vertex format `GetFVF` reports for it. -/
structure Mesh where
  obj : Obj
  fvf : Nat
  deriving DecidableEq, Repr

/-- A heap array of texture pointers: the `new[]` that allocated it and its
cells.  `g_pMeshTextures` and `g_pMeshTextures2` are pointers to such arrays. -/
structure TextureArray where
  site : Slot
  cells : List (Option Obj)
  deriving DecidableEq, Repr

/-- The vertex-format bit `D3DFVF_NORMAL` (d3d9types.h). -/
def D3DFVF_NORMAL : Nat := 0x010

/-- The path buffer length `MAX_PATH` (windef.h). -/
def MAX_PATH : Nat := 260

/-- The light kinds of `D3DLIGHTTYPE`. -/
inductive D3DLIGHTTYPE where
  | D3DLIGHT_POINT
  | D3DLIGHT_SPOT
  | D3DLIGHT_DIRECTIONAL
  deriving DecidableEq, Repr

/-- The direction `SetupLights` computes: `D3DXVec3Normalize` of
`(cosf(tCos / 350.0f + p), 1.0f, sinf(tSin / 350.0f + p))` where `p` is `D3DX_PI`
when `plusPi` and `0` otherwise; kept symbolic. -/
structure LightDirection where
  tCos : Nat
  tSin : Nat
  plusPi : Bool
  deriving DecidableEq, Repr

/-- The light record `D3DLIGHT9` (its field `Type` is written `Type_`); the
fields `SetupLights` does not assign keep the zero `ZeroMemory` wrote. -/
structure D3DLIGHT9 where
  Type_ : D3DLIGHTTYPE
  Diffuse : D3DCOLORVALUE
  Specular : D3DCOLORVALUE
  Ambient : D3DCOLORVALUE
  Position : FLOAT × FLOAT × FLOAT
  Direction : LightDirection
  Range : FLOAT
  Falloff : FLOAT
  Attenuation0 : FLOAT
  Attenuation1 : FLOAT
  Attenuation2 : FLOAT
  Theta : FLOAT
  Phi : FLOAT
  deriving DecidableEq, Repr

/-- The render states `InitD3D` sets. -/
inductive D3DRENDERSTATETYPE where
  | D3DRS_ZENABLE
  | D3DRS_LIGHTING
  | D3DRS_AMBIENT
  deriving DecidableEq, Repr

/-- The transforms the program sets. -/
inductive D3DTRANSFORMSTATETYPE where
  | D3DTS_WORLD
  | D3DTS_VIEW
  | D3DTS_PROJECTION
  deriving DecidableEq, Repr

/-- The matrices the program builds with D3DX, kept symbolic. -/
inductive Matrix where
  | rotationY (time : Nat)
  | lookAtLH
  | perspectiveFovLH
  | translation (x y z : Int)
  deriving DecidableEq, Repr

/-- The functions of the program. -/
inductive Fn where
  | InitD3D
  | SetupLights
  | InitGeometry
  | Cleanup
  | SetupMatrices
  | Render
  | MsgProc
  | wWinMain
  deriving DecidableEq, Repr

/-- The pointer variables the program indexes. -/
inductive ArrayName where
  | g_pMeshMaterials
  | g_pMeshTextures
  | g_pMeshMaterials2
  | g_pMeshTextures2
  | d3dxMaterials
  | d3dxMaterials2
  deriving DecidableEq, Repr

/-- A window message: its code and whether it is addressed to the window of the
program (`DispatchMessage` hands only those to `MsgProc`). -/
structure MSG where
  message : Nat
  toWindow : Bool
  deriving DecidableEq, Repr

/-- Message code `WM_DESTROY` (winuser.h). -/
def WM_DESTROY : Nat := 0x0002

/-- Message code `WM_QUIT` (winuser.h). -/
def WM_QUIT : Nat := 0x0012

/-- Everything the program does to the outside world, one constructor per call. -/
inductive Event where
  | enter (f : Fn)
  | Direct3DCreate9 (ok : Bool)
  | CreateDevice (ok : Bool)
  | SetRenderState (state : D3DRENDERSTATETYPE) (value : Nat)
  | SetLight (index : Nat) (light : D3DLIGHT9)
  | LightEnable (index : Nat) (enable : Bool)
  | D3DXLoadMeshFromX (file : String) (ok : Bool)
  | MessageBox (text : String)
  | CloneMeshFVF (mesh : Obj) (fvf : Nat) (clone : Obj)
  | D3DXComputeNormals (mesh : Obj)
  | Release (obj : Obj)
  | D3DXCreateTextureFromFileA (file : String) (ok : Bool)
  | invalidParameter
  | outOfBounds (array : ArrayName) (index : Nat)
  | deleteArray (array : ArrayName)
  | Clear
  | BeginScene (ok : Bool)
  | SetTransform (state : D3DTRANSFORMSTATETYPE) (m : Matrix)
  | SetMaterial (m : D3DMATERIAL9)
  | SetTexture (stage : Nat) (texture : Option Obj)
  | DrawSubset (mesh : Option Obj) (i : Nat)
  | EndScene
  | Present
  | RegisterClassEx
  | CreateWindow
  | ShowWindow
  | UpdateWindow
  | PeekMessage (msg : Option MSG)
  | TranslateMessage
  | DispatchMessage (msg : MSG)
  | PostQuitMessage (code : Int)
  | DefWindowProc (msg : Nat)
  | UnregisterClass
  deriving DecidableEq, Repr

/-- What `D3DXLoadMeshFromX` hands back for a file it can load: the vertex format
of the mesh, the material count it reports (a `DWORD`; the loops compare
`i < count` and cannot wrap) and the material buffer. -/
structure XFile where
  fvf : Nat
  numMaterials : Nat
  materials : List D3DXMATERIAL
  deriving DecidableEq, Repr

/-- The four `new[]` expressions of `InitGeometry`. -/
inductive AllocSite where
  | materials (slot : Slot)
  | textures (slot : Slot)
  deriving DecidableEq, Repr

/-- The answers of the outside world during start-up. -/
structure Env where
  Direct3DCreate9 : Bool
  CreateDevice : Bool
  D3DXLoadMeshFromX : String → Option XFile
  D3DXCreateTextureFromFileA : String → Bool
  operatorNew : AllocSite → Bool

/-- The answers of the outside world during one call of `Render`: whether
`BeginScene` succeeds and what the k-th call of `timeGetTime` returns. -/
structure Frame where
  BeginScene : Bool
  timeGetTime : Nat → Nat

/-- The global variables. -/
structure Globals where
  g_pD3D : Option Obj
  g_pd3dDevice : Option Obj
  g_pMesh : Option Mesh
  g_pMeshMaterials : Option (List D3DMATERIAL9)
  g_pMeshTextures : Option TextureArray
  g_dwNumMaterials : Nat
  g_pMesh2 : Option Mesh
  g_pMeshMaterials2 : Option (List D3DMATERIAL9)
  g_pMeshTextures2 : Option TextureArray
  g_dwNumMaterials2 : Nat
  deriving DecidableEq, Repr

/-- The initial values of the globals (lines 32-43). -/
def initialGlobals : Globals :=
  { g_pD3D := none, g_pd3dDevice := none,
    g_pMesh := none, g_pMeshMaterials := none, g_pMeshTextures := none,
    g_dwNumMaterials := 0,
    g_pMesh2 := none, g_pMeshMaterials2 := none, g_pMeshTextures2 := none,
    g_dwNumMaterials2 := 0 }

/-! ## Loops and array reads -/

/-- The loop `for( DWORD i = 0; i < n; i++ ) body`. -/
def forLoop {σ : Type} (n : Nat) (body : Nat → σ → σ) (s : σ) : σ :=
  (List.range n).foldl (fun acc i => body i acc) s

/-- The read `p[i]`: `none` when `p` is `NULL` or `i` is not below the
allocated length. -/
def readAt {α : Type} (p : Option (List α)) (i : Nat) : Option α :=
  match p with
  | none => none
  | some cells => cells[i]?

/-! ## InitD3D (lines 51-83) -/

/-- `InitD3D`. -/
def InitD3D (env : Env) (g : Globals) : HRESULT × Globals × List Event :=
  if env.Direct3DCreate9 = false then
    (.E_FAIL, { g with g_pD3D := none },
      [.enter .InitD3D, .Direct3DCreate9 false])
  else
    let g1 := { g with g_pD3D := some .d3d }
    if env.CreateDevice = false then
      (.E_FAIL, g1, [.enter .InitD3D, .Direct3DCreate9 true, .CreateDevice false])
    else
      (.S_OK, { g1 with g_pd3dDevice := some .device },
        [.enter .InitD3D, .Direct3DCreate9 true, .CreateDevice true,
         .SetRenderState .D3DRS_ZENABLE 1,
         .SetRenderState .D3DRS_LIGHTING 1,
         .SetRenderState .D3DRS_AMBIENT 0xffa0a0a0])

/-! ## SetupLights (lines 91-131) -/

/-- The colour whose four floats are zero. -/
def zeroColor : D3DCOLORVALUE := { r := f0, g := f0, b := f0, a := f0 }

/-- The light `SetupLights` fills after `ZeroMemory`: type, diffuse red and green,
direction and range are assigned, everything else stays zero. -/
def directionalLight (red green : FLOAT) (dir : LightDirection) : D3DLIGHT9 :=
  { Type_ := .D3DLIGHT_DIRECTIONAL,
    Diffuse := { r := red, g := green, b := f0, a := f0 },
    Specular := zeroColor, Ambient := zeroColor,
    Position := (f0, f0, f0),
    Direction := dir,
    Range := f10000,
    Falloff := f0, Attenuation0 := f0, Attenuation1 := f0, Attenuation2 := f0,
    Theta := f0, Phi := f0 }

/-- `SetupLights`; `time k` is what its k-th call of `timeGetTime` returns. -/
def SetupLights (time : Nat → Nat) : List Event :=
  [ .enter .SetupLights,
    .SetLight 0 (directionalLight f1 f0
      { tCos := time 0, tSin := time 1, plusPi := false }),
    .SetLight 1 (directionalLight f0 f1
      { tCos := time 2, tSin := time 3, plusPi := true }),
    .LightEnable 0 true,
    .LightEnable 1 true ]

/-! ## InitGeometry (lines 137-312)

The function runs the same block twice, once for `Tiger.x` and the first set of
globals (lines 139-222) and once for `Tiger2.x` and the second set (lines
227-310).  The two copies differ in the file names, the message and the globals
they assign, so the block is written once, with the slot as a parameter. -/

/-- The two `D3DXLoadMeshFromX` attempts of one block (lines 142-156 and
230-244): the file in the current folder, then in the parent folder, then the
message box.  The result is the loaded file, or `none` when the block returns
`E_FAIL`. -/
def loadMeshFile (env : Env) (file parent message : String) :
    Option XFile × List Event :=
  match env.D3DXLoadMeshFromX file with
  | some x => (some x, [.D3DXLoadMeshFromX file true])
  | none =>
    match env.D3DXLoadMeshFromX parent with
    | some x =>
      (some x, [.D3DXLoadMeshFromX file false, .D3DXLoadMeshFromX parent true])
    | none =>
      (none, [.D3DXLoadMeshFromX file false, .D3DXLoadMeshFromX parent false,
              .MessageBox message])

/-- The normals block (lines 159-174 and 247-262): a mesh whose format lacks
`D3DFVF_NORMAL` is cloned with the bit added, `D3DXComputeNormals` runs on the
clone, the original is released and the clone is kept. -/
def ensureNormals (slot : Slot) (mesh : Mesh) : Mesh × List Event :=
  if mesh.fvf &&& D3DFVF_NORMAL = 0 then
    let pTempMesh : Mesh := { obj := .clone slot, fvf := mesh.fvf ||| D3DFVF_NORMAL }
    (pTempMesh,
      [.CloneMeshFVF mesh.obj (mesh.fvf ||| D3DFVF_NORMAL) pTempMesh.obj,
       .D3DXComputeNormals pTempMesh.obj,
       .Release mesh.obj])
  else
    (mesh, [])

/-- The call `strcpy_s( dest, size, src )` on a fresh buffer: the copy when it
fits with its terminator, otherwise the empty string and the invalid-parameter
report of the C runtime. -/
def strcpy_s (size : Nat) (src : String) : String × List Event :=
  if src.length + 1 ≤ size then (src, []) else ("", [.invalidParameter])

/-- The call `strcat_s( dest, size, src )`: the concatenation when it fits with
its terminator, otherwise the C runtime reports an invalid parameter and, when
execution goes on, leaves the empty string in `dest`. -/
def strcat_s (dest : String) (size : Nat) (src : String) : String × List Event :=
  if dest.length + src.length + 1 ≤ size then (dest ++ src, [])
  else ("", [.invalidParameter])

/-- The name of the second texture attempt (lines 205-208): `"..\\"` copied into
a `CHAR[MAX_PATH]` buffer and the file name appended to it. -/
def parentTextureName (name : String) : String × List Event :=
  let copied := strcpy_s MAX_PATH "..\\"
  let joined := strcat_s copied.1 MAX_PATH name
  (joined.1, copied.2 ++ joined.2)

/-- The texture part of one loop iteration (lines 195-217 and 283-305): the value
left in texture cell `i` and the calls made. -/
def loadTexture (env : Env) (slot : Slot) (i : Nat) (name : Option String) :
    Option Obj × List Event :=
  match name with
  | none => (none, [])
  | some file =>
    if file.length > 0 then
      if env.D3DXCreateTextureFromFileA file then
        (some (.texture slot i), [.D3DXCreateTextureFromFileA file true])
      else
        let strTexture := parentTextureName file
        if env.D3DXCreateTextureFromFileA strTexture.1 then
          (some (.texture slot i),
            [.D3DXCreateTextureFromFileA file false] ++ strTexture.2 ++
            [.D3DXCreateTextureFromFileA strTexture.1 true])
        else
          (none,
            [.D3DXCreateTextureFromFileA file false] ++ strTexture.2 ++
            [.D3DXCreateTextureFromFileA strTexture.1 false,
             .MessageBox "Could not find texture map"])
    else (none, [])

/-- The arrays a material loop writes and the calls it has made so far. -/
structure LoopState where
  materials : List D3DMATERIAL9
  textures : List (Option Obj)
  trace : List Event
  deriving DecidableEq, Repr

/-- The name under which a block reads the material buffer. -/
def bufferName (slot : Slot) : ArrayName :=
  match slot with
  | .first => .d3dxMaterials
  | .second => .d3dxMaterials2

/-- The read `d3dxMaterials[i]` of the material buffer. -/
def readMaterial (slot : Slot) (d3dxMaterials : List D3DXMATERIAL) (i : Nat) :
    D3DXMATERIAL × List Event :=
  match d3dxMaterials[i]? with
  | some m => (m, [])
  | none => (default, [.outOfBounds (bufferName slot) i])

/-- One iteration of the material loop (lines 188-218 and 276-306). -/
def materialStep (env : Env) (slot : Slot) (d3dxMaterials : List D3DXMATERIAL)
    (i : Nat) (s : LoopState) : LoopState :=
  let src := readMaterial slot d3dxMaterials i
  let copied : D3DMATERIAL9 := src.1.MatD3D
  let stored : D3DMATERIAL9 := { copied with Ambient := copied.Diffuse }
  let tex := loadTexture env slot i src.1.pTextureFilename
  { materials := s.materials.set i stored,
    textures := s.textures.set i tex.1,
    trace := s.trace ++ src.2 ++ tex.2 }

/-- The four globals of one slot. -/
structure MeshData where
  mesh : Option Mesh
  materials : Option (List D3DMATERIAL9)
  textures : Option TextureArray
  num : Nat
  deriving DecidableEq, Repr

/-- One block of `InitGeometry` (lines 139-222 and 227-310), from the load of the
mesh file to the release of the material buffer. -/
def loadGeometry (env : Env) (slot : Slot) (file parent message : String)
    (old : MeshData) : HRESULT × MeshData × List Event :=
  match loadMeshFile env file parent message with
  | (none, ev) => (.E_FAIL, old, ev)
  | (some x, ev) =>
    let kept := ensureNormals slot { obj := .mesh slot, fvf := x.fvf }
    let n := x.numMaterials
    if env.operatorNew (.materials slot) = false then
      (.E_OUTOFMEMORY,
        { mesh := some kept.1, materials := none, textures := old.textures, num := n },
        ev ++ kept.2)
    else if env.operatorNew (.textures slot) = false then
      (.E_OUTOFMEMORY,
        { mesh := some kept.1, materials := some (List.replicate n default),
          textures := none, num := n },
        ev ++ kept.2)
    else
      let s := forLoop n (materialStep env slot x.materials)
        { materials := List.replicate n default,
          textures := List.replicate n none,
          trace := [] }
      (.S_OK,
        { mesh := some kept.1, materials := some s.materials,
          textures := some { site := slot, cells := s.textures }, num := n },
        ev ++ kept.2 ++ s.trace ++ [.Release (.buffer slot)])

/-- The first set of mesh globals. -/
def Globals.first (g : Globals) : MeshData :=
  { mesh := g.g_pMesh, materials := g.g_pMeshMaterials,
    textures := g.g_pMeshTextures, num := g.g_dwNumMaterials }

/-- The second set of mesh globals. -/
def Globals.second (g : Globals) : MeshData :=
  { mesh := g.g_pMesh2, materials := g.g_pMeshMaterials2,
    textures := g.g_pMeshTextures2, num := g.g_dwNumMaterials2 }

/-- Assignment of the first set of mesh globals. -/
def Globals.setFirst (g : Globals) (d : MeshData) : Globals :=
  { g with g_pMesh := d.mesh, g_pMeshMaterials := d.materials,
           g_pMeshTextures := d.textures, g_dwNumMaterials := d.num }

/-- Assignment of the second set of mesh globals. -/
def Globals.setSecond (g : Globals) (d : MeshData) : Globals :=
  { g with g_pMesh2 := d.mesh, g_pMeshMaterials2 := d.materials,
           g_pMeshTextures2 := d.textures, g_dwNumMaterials2 := d.num }

/-- `InitGeometry`. -/
def InitGeometry (env : Env) (g : Globals) : HRESULT × Globals × List Event :=
  let one := loadGeometry env .first "Tiger.x" "..\\Tiger.x" "Could not find tiger.x"
    g.first
  let g1 := g.setFirst one.2.1
  match one.1 with
  | .S_OK =>
    let two := loadGeometry env .second "Tiger2.x" "..\\Tiger2.x"
      "Could not find tiger2.x" g1.second
    (two.1, g1.setSecond two.2.1, [.enter .InitGeometry] ++ one.2.2 ++ two.2.2)
  | hr => (hr, g1, [.enter .InitGeometry] ++ one.2.2)

/-! ## Cleanup (lines 321-356) -/

/-- One texture loop of `Cleanup` (lines 328-336 and 337-345) for the pointer
`p`, the count `n` and the variable name `name`. -/
def releaseTextures (name : ArrayName) (p : Option TextureArray) (n : Nat) :
    List Event :=
  match p with
  | none => []
  | some arr =>
    forLoop n (fun i tr =>
      tr ++ match arr.cells[i]? with
            | some (some t) => [.Release t]
            | some none => []
            | none => [.outOfBounds name i]) [] ++ [.deleteArray name]

/-- The guarded `Release` of a COM pointer. -/
def releaseIfSet (p : Option Obj) : List Event :=
  match p with
  | some o => [.Release o]
  | none => []

/-- `Cleanup`. -/
def Cleanup (g : Globals) : List Event :=
  [.enter .Cleanup] ++
  (if g.g_pMeshMaterials.isSome then [.deleteArray .g_pMeshMaterials] else []) ++
  (if g.g_pMeshMaterials2.isSome then [.deleteArray .g_pMeshMaterials2] else []) ++
  releaseTextures .g_pMeshTextures g.g_pMeshTextures g.g_dwNumMaterials ++
  releaseTextures .g_pMeshTextures2 g.g_pMeshTextures2 g.g_dwNumMaterials2 ++
  releaseIfSet (g.g_pMesh.map Mesh.obj) ++
  releaseIfSet (g.g_pMesh2.map Mesh.obj) ++
  releaseIfSet g.g_pd3dDevice ++
  releaseIfSet g.g_pD3D

/-! ## SetupMatrices (lines 364-391) and Render (lines 400-446) -/

/-- `SetupMatrices`; `time` is what its call of `timeGetTime` returns. -/
def SetupMatrices (time : Nat) : List Event :=
  [ .enter .SetupMatrices,
    .SetTransform .D3DTS_WORLD (.rotationY time),
    .SetTransform .D3DTS_VIEW .lookAtLH,
    .SetTransform .D3DTS_PROJECTION .perspectiveFovLH ]

/-- The calls `SetMaterial( &materials[i] )` and `SetTexture( 0, textures[i] )`
of one loop iteration of `Render`. -/
def setSubsetState (matName texName : ArrayName)
    (materials : Option (List D3DMATERIAL9)) (textures : Option TextureArray)
    (i : Nat) : List Event :=
  (match readAt materials i with
   | some m => [.SetMaterial m]
   | none => [.outOfBounds matName i]) ++
  (match readAt (textures.map TextureArray.cells) i with
   | some t => [.SetTexture 0 t]
   | none => [.outOfBounds texName i])

/-- `Render`.  Both loops call `DrawSubset` on `g_pMesh` (lines 423 and 435). -/
def Render (frame : Frame) (g : Globals) : Globals × List Event :=
  let scene : List Event :=
    if frame.BeginScene then
      [.BeginScene true] ++
      SetupMatrices (frame.timeGetTime 0) ++
      SetupLights (fun k => frame.timeGetTime (k + 1)) ++
      forLoop g.g_dwNumMaterials (fun i tr =>
        tr ++ setSubsetState .g_pMeshMaterials .g_pMeshTextures
                g.g_pMeshMaterials g.g_pMeshTextures i ++
              [.DrawSubset (g.g_pMesh.map Mesh.obj) i]) [] ++
      [.SetTransform .D3DTS_WORLD (.translation 1 0 0)] ++
      forLoop g.g_dwNumMaterials2 (fun i tr =>
        tr ++ setSubsetState .g_pMeshMaterials2 .g_pMeshTextures2
                g.g_pMeshMaterials2 g.g_pMeshTextures2 i ++
              [.DrawSubset (g.g_pMesh.map Mesh.obj) i]) [] ++
      [.EndScene]
    else [.BeginScene false]
  let pTemp := g.g_pMeshTextures
  ({ g with g_pMeshTextures := g.g_pMeshTextures2, g_pMeshTextures2 := pTemp },
    [.enter .Render, .Clear] ++ scene ++ [.Present])

/-- The globals after the frames of `frames`, rendered from left to right. -/
def renderFrames (frames : List Frame) (g : Globals) : Globals :=
  frames.foldl (fun acc frame => (Render frame acc).1) g

/-! ## MsgProc (lines 455-466) and wWinMain (lines 475-521) -/

/-- `MsgProc`. -/
def MsgProc (g : Globals) (msg : Nat) : List Event :=
  if msg = WM_DESTROY then
    [.enter .MsgProc] ++ Cleanup g ++ [.PostQuitMessage 0]
  else
    [.enter .MsgProc, .DefWindowProc msg]

/-- The message queue and the clock while the message loop runs: what the k-th
`PeekMessage` of the loop retrieves (`none` when the queue is empty) and the
frame answers for that iteration. -/
structure Queue where
  PeekMessage : Nat → Option MSG
  frame : Nat → Frame

/-- What a run of the message loop has produced when it stops or when the
observer stops watching: whether the loop has ended, the globals and the calls
made. -/
structure LoopRun where
  finished : Bool
  globals : Globals
  trace : List Event

/-- The message loop (lines 506-515), watched for at most `fuel` tests of its
condition: `k` counts the iterations made, `message` is `msg.message`. -/
def messageLoop (q : Queue) : Nat → Nat → Nat → Globals → LoopRun
  | 0, _, _, g => { finished := false, globals := g, trace := [] }
  | fuel + 1, k, message, g =>
    if message = WM_QUIT then { finished := true, globals := g, trace := [] }
    else
      match q.PeekMessage k with
      | some m =>
        let here : List Event :=
          [.PeekMessage (some m), .TranslateMessage, .DispatchMessage m] ++
          (if m.toWindow then MsgProc g m.message else [])
        let rest := messageLoop q fuel (k + 1) m.message g
        { rest with trace := here ++ rest.trace }
      | none =>
        let r := Render (q.frame k) g
        let rest := messageLoop q fuel (k + 1) message r.1
        { rest with trace := [.PeekMessage none] ++ r.2 ++ rest.trace }

/-- What `wWinMain` has done when it returns or when the observer stops
watching: the value returned (`none` while the message loop is still running)
and the calls made. -/
structure MainRun where
  result : Option Int
  trace : List Event

/-- `wWinMain`, its message loop watched for at most `fuel` tests of the loop
condition. -/
def wWinMain (env : Env) (q : Queue) (fuel : Nat) : MainRun :=
  let start : List Event := [.enter .wWinMain, .RegisterClassEx, .CreateWindow]
  let d3d := InitD3D env initialGlobals
  if SUCCEEDED d3d.1 then
    let geo := InitGeometry env d3d.2.1
    if SUCCEEDED geo.1 then
      let run := messageLoop q fuel 0 0 geo.2.1
      if run.finished then
        { result := some 0,
          trace := start ++ d3d.2.2 ++ geo.2.2 ++ [.ShowWindow, .UpdateWindow] ++
                   run.trace ++ [.UnregisterClass] }
      else
        { result := none,
          trace := start ++ d3d.2.2 ++ geo.2.2 ++ [.ShowWindow, .UpdateWindow] ++
                   run.trace }
    else
      { result := some 0, trace := start ++ d3d.2.2 ++ geo.2.2 ++ [.UnregisterClass] }
  else
    { result := some 0, trace := start ++ d3d.2.2 ++ [.UnregisterClass] }

/-! ## Vocabulary of the statements -/

/-- The calls of the first `n` iterations of a loop whose iteration `i` makes the
calls `f i`. -/
def gather (f : Nat → List Event) : Nat → List Event
  | 0 => []
  | n + 1 => gather f n ++ f n

/-- The lights set in a trace, in order: index and light of every `SetLight`. -/
def lightsSet (tr : List Event) : List (Nat × D3DLIGHT9) :=
  tr.filterMap fun e =>
    match e with
    | .SetLight i l => some (i, l)
    | _ => none

/-- The `LightEnable` calls of a trace, in order. -/
def lightsEnabled (tr : List Event) : List (Nat × Bool) :=
  tr.filterMap fun e =>
    match e with
    | .LightEnable i b => some (i, b)
    | _ => none

/-- The `DrawSubset` calls of a trace, in order: mesh and subset. -/
def draws (tr : List Event) : List (Option Obj × Nat) :=
  tr.filterMap fun e =>
    match e with
    | .DrawSubset m i => some (m, i)
    | _ => none

/-- The texts of the message boxes of a trace, in order. -/
def boxes (tr : List Event) : List String :=
  tr.filterMap fun e =>
    match e with
    | .MessageBox t => some t
    | _ => none

/-- The texture part of a trace, in order: every `D3DXCreateTextureFromFileA`
attempt and every "Could not find texture map" box. -/
def textureLog (tr : List Event) : List Event :=
  tr.filter fun e =>
    match e with
    | .D3DXCreateTextureFromFileA _ _ => true
    | .MessageBox t => t == "Could not find texture map"
    | _ => false

/-- The objects released in a trace, in order. -/
def released (tr : List Event) : List Obj :=
  tr.filterMap fun e =>
    match e with
    | .Release o => some o
    | _ => none

/-- The array reads of a trace that were not inside the allocation. -/
def badReads (tr : List Event) : List (ArrayName × Nat) :=
  tr.filterMap fun e =>
    match e with
    | .outOfBounds a i => some (a, i)
    | _ => none

/-- The material iteration `i` of a block stores. -/
def storedMaterial (slot : Slot) (buffer : List D3DXMATERIAL) (i : Nat) : D3DMATERIAL9 :=
  { (readMaterial slot buffer i).1.MatD3D with
    Ambient := (readMaterial slot buffer i).1.MatD3D.Diffuse }

/-- The texture pointer iteration `i` of a block stores. -/
def storedTexture (env : Env) (slot : Slot) (buffer : List D3DXMATERIAL) (i : Nat) :
    Option Obj :=
  (loadTexture env slot i (readMaterial slot buffer i).1.pTextureFilename).1

/-- The calls iteration `i` of a material loop makes. -/
def stepEvents (env : Env) (slot : Slot) (buffer : List D3DXMATERIAL) (i : Nat) :
    List Event :=
  (readMaterial slot buffer i).2 ++
  (loadTexture env slot i (readMaterial slot buffer i).1.pTextureFilename).2

/-- The calls of one block of `InitGeometry` that loads the file `x` and gets its
two arrays: the load attempts, the normals block, the material loop and the
release of the material buffer. -/
def blockTrace (env : Env) (slot : Slot) (file parent message : String) (x : XFile) :
    List Event :=
  (loadMeshFile env file parent message).2 ++
  (ensureNormals slot { obj := .mesh slot, fvf := x.fvf }).2 ++
  gather (stepEvents env slot x.materials) x.numMaterials ++
  [.Release (.buffer slot)]

/-- The globals one block of `InitGeometry` assigns when it loads the file `x` and
gets its two arrays. -/
def blockData (env : Env) (slot : Slot) (x : XFile) : MeshData :=
  { mesh := some (ensureNormals slot { obj := .mesh slot, fvf := x.fvf }).1,
    materials := some ((List.range x.numMaterials).map (storedMaterial slot x.materials)),
    textures := some { site := slot,
                       cells := (List.range x.numMaterials).map
                                  (storedTexture env slot x.materials) },
    num := x.numMaterials }

/-- The file `loadMeshFile` ends up with: the one in the current folder, else the
one in the parent folder. -/
def loadedFile (env : Env) (file parent : String) : Option XFile :=
  match env.D3DXLoadMeshFromX file with
  | some x => some x
  | none => env.D3DXLoadMeshFromX parent

/-! ## The claims, in the words of the specification -/

/-- What is said of the stored arrays of one mesh: the count is the one the loader
reported for the file `x`, both arrays have that many entries, and stored material
`i` has the diffuse, specular, emissive colours and the power of entry `i` of the
material buffer, and its diffuse colour as ambient colour. -/
def MaterialsCopied (x : XFile) (d : MeshData) : Prop :=
  d.num = x.numMaterials ∧
  ∃ ms ts, d.materials = some ms ∧ d.textures = some ts ∧
    ms.length = x.numMaterials ∧ ts.cells.length = x.numMaterials ∧
    ∀ i m, i < x.numMaterials → x.materials[i]? = some m →
      ∃ st, ms[i]? = some st ∧
        st.Diffuse = m.MatD3D.Diffuse ∧ st.Specular = m.MatD3D.Specular ∧
        st.Emissive = m.MatD3D.Emissive ∧ st.Power = m.MatD3D.Power ∧
        st.Ambient = m.MatD3D.Diffuse

/-- The texture calls said to be made for a material whose file name is `name`:
none for a null or empty name; otherwise a load with the name as given, and only
if that fails a load with `"..\\"` put before the name, and only if that fails too
the message box. -/
def textureAttempts (env : Env) (name : Option String) : List Event :=
  match name with
  | none => []
  | some file =>
    if file.length = 0 then []
    else if env.D3DXCreateTextureFromFileA file then
      [.D3DXCreateTextureFromFileA file true]
    else if env.D3DXCreateTextureFromFileA ("..\\" ++ file) then
      [.D3DXCreateTextureFromFileA file false,
       .D3DXCreateTextureFromFileA ("..\\" ++ file) true]
    else
      [.D3DXCreateTextureFromFileA file false,
       .D3DXCreateTextureFromFileA ("..\\" ++ file) false,
       .MessageBox "Could not find texture map"]

/-- The texture pointer said to be left in cell `i`: `NULL` for a null or empty
name and when both loads fail, the texture created otherwise. -/
def textureCell (env : Env) (slot : Slot) (i : Nat) (name : Option String) : Option Obj :=
  match name with
  | none => none
  | some file =>
    if file.length = 0 then none
    else if env.D3DXCreateTextureFromFileA file ||
        env.D3DXCreateTextureFromFileA ("..\\" ++ file) then some (.texture slot i)
    else none

/-- The texture file name of material `i` of a loaded file (`none` for `NULL`). -/
def XFile.textureName (x : XFile) (i : Nat) : Option String :=
  x.materials[i]?.bind D3DXMATERIAL.pTextureFilename

/-- The array `g_pMeshTextures` points to has `g_dwNumMaterials` entries and the
array `g_pMeshTextures2` points to has `g_dwNumMaterials2` entries. -/
def texturesMatchCounts (g : Globals) : Bool :=
  decide (g.g_pMeshTextures.map (fun t => t.cells.length) = some g.g_dwNumMaterials) &&
  decide (g.g_pMeshTextures2.map (fun t => t.cells.length) = some g.g_dwNumMaterials2)

/-! ## Concrete inputs -/

/-- A material with the texture file name `name`. -/
def sampleMaterial (name : Option String) : D3DXMATERIAL :=
  { MatD3D := { Diffuse := { r := 1, g := 2, b := 3, a := 4 },
                Ambient := { r := 5, g := 6, b := 7, a := 8 },
                Specular := { r := 9, g := 10, b := 11, a := 12 },
                Emissive := { r := 13, g := 14, b := 15, a := 16 },
                Power := 17 },
    pTextureFilename := name }

/-- A mesh file without normals and with two textured materials. -/
def sampleTiger : XFile :=
  { fvf := 0x102, numMaterials := 2,
    materials := [sampleMaterial (some "a.bmp"), sampleMaterial (some "b.bmp")] }

/-- A mesh file with normals and with one textured material. -/
def sampleTiger2 : XFile :=
  { fvf := 0x112, numMaterials := 1, materials := [sampleMaterial (some "c.bmp")] }

/-- A world in which everything succeeds: `Tiger.x` (`sampleTiger`) is in the
current folder and the texture of its second material is in the parent folder;
`Tiger2.x` (`sampleTiger2`) is in the parent folder. -/
def sampleEnv : Env :=
  { Direct3DCreate9 := true,
    CreateDevice := true,
    D3DXLoadMeshFromX := fun f =>
      (if f = "Tiger.x" then some sampleTiger
       else if f = "..\\Tiger2.x" then some sampleTiger2
       else none),
    D3DXCreateTextureFromFileA := fun f => f == "a.bmp" || f == "..\\b.bmp" || f == "c.bmp",
    operatorNew := fun _ => true }

/-- A frame in which `BeginScene` succeeds. -/
def sampleFrame : Frame := { BeginScene := true, timeGetTime := fun k => 1000 + k }

/-- A frame in which `BeginScene` fails. -/
def lostFrame : Frame := { BeginScene := false, timeGetTime := fun k => 2000 + k }

/-- The globals after `InitD3D` and `InitGeometry` in `sampleEnv`. -/
def sampleGlobals : Globals :=
  (InitGeometry sampleEnv (InitD3D sampleEnv initialGlobals).2.1).2.1

/-- A texture file name of 257 characters. -/
def longName : String := String.mk (List.replicate 257 'a')

/-- A world in which `Tiger.x` has one material, whose texture file has the name
`longName` and cannot be found anywhere, and `Tiger2.x` has no material. -/
def longNameEnv : Env :=
  { Direct3DCreate9 := true,
    CreateDevice := true,
    D3DXLoadMeshFromX := fun f =>
      (if f = "Tiger.x" then
        some { fvf := 0x112, numMaterials := 1,
               materials := [sampleMaterial (some longName)] }
      else if f = "Tiger2.x" then
        some { fvf := 0x112, numMaterials := 0, materials := [] }
      else none),
    D3DXCreateTextureFromFileA := fun _ => false,
    operatorNew := fun _ => true }

theorem forLoop_zero {σ : Type} (body : Nat → σ → σ) (s : σ) : forLoop 0 body s = s := rfl

theorem forLoop_succ {σ : Type} (n : Nat) (body : Nat → σ → σ) (s : σ) :
    forLoop (n + 1) body s = body n (forLoop n body s) := by
  simp [forLoop, List.range_succ, List.foldl_append]

theorem forLoop_trace (f : Nat → List Event) (n : Nat) (init : List Event) :
    forLoop n (fun i tr => tr ++ f i) init = init ++ gather f n := by
  induction n with
  | zero => simp [forLoop_zero, gather]
  | succ k ih => rw [forLoop_succ, ih, gather, List.append_assoc]

theorem mem_gather {f : Nat → List Event} {n : Nat} {e : Event} :
    e ∈ gather f n ↔ ∃ i, i < n ∧ e ∈ f i := by
  induction n with
  | zero => simp [gather]
  | succ k ih =>
    simp only [gather, List.mem_append, ih]
    constructor
    · rintro (⟨i, hi, he⟩ | he)
      · exact ⟨i, Nat.lt_succ_of_lt hi, he⟩
      · exact ⟨k, Nat.lt_succ_self k, he⟩
    · rintro ⟨i, hi, he⟩
      rcases Nat.lt_succ_iff_lt_or_eq.mp hi with h | h
      · exact Or.inl ⟨i, h, he⟩
      · subst h; exact Or.inr he

theorem filterMap_gather {β : Type} (p : Event → Option β) (f : Nat → List Event)
    (h : ∀ i, (f i).filterMap p = []) (n : Nat) : (gather f n).filterMap p = [] := by
  induction n with
  | zero => simp [gather]
  | succ k ih => simp [gather, List.filterMap_append, ih, h]

/-! ## Render -/

theorem Render_globals (frame : Frame) (g : Globals) :
    (Render frame g).1 =
      { g with g_pMeshTextures := g.g_pMeshTextures2, g_pMeshTextures2 := g.g_pMeshTextures } := by
  simp [Render]

theorem renderFrames_nil (g : Globals) : renderFrames [] g = g := rfl

theorem renderFrames_cons (frame : Frame) (frames : List Frame) (g : Globals) :
    renderFrames (frame :: frames) g = renderFrames frames (Render frame g).1 := rfl

theorem renderFrames_spec (frames : List Frame) (g : Globals) :
    renderFrames frames g =
      if frames.length % 2 = 0 then g
      else { g with g_pMeshTextures := g.g_pMeshTextures2,
                    g_pMeshTextures2 := g.g_pMeshTextures } := by
  induction frames generalizing g with
  | nil => simp [renderFrames_nil]
  | cons frame rest ih =>
    rw [renderFrames_cons, ih, Render_globals]
    simp only [List.length_cons]
    rcases Nat.mod_two_eq_zero_or_one rest.length with h | h
    · have h2 : (rest.length + 1) % 2 = 1 := by omega
      simp [h, h2]
    · have h2 : (rest.length + 1) % 2 = 0 := by omega
      simp [h, h2]

/-! ## The material loop -/

theorem set_prefix_replicate {α : Type} (pre : List α) (k m : Nat) (d x : α)
    (hk : pre.length = k) :
    (pre ++ List.replicate (m + 1) d).set k x = (pre ++ [x]) ++ List.replicate m d := by
  rw [List.set_append_right k x (by omega)]
  simp [hk, List.replicate_succ]

theorem materialLoop_upto (env : Env) (slot : Slot) (buffer : List D3DXMATERIAL)
    (n k : Nat) (hk : k ≤ n) :
    forLoop k (materialStep env slot buffer)
        { materials := List.replicate n default, textures := List.replicate n none,
          trace := [] } =
      { materials := (List.range k).map (storedMaterial slot buffer) ++
                       List.replicate (n - k) default,
        textures := (List.range k).map (storedTexture env slot buffer) ++
                       List.replicate (n - k) none,
        trace := gather (stepEvents env slot buffer) k } := by
  induction k with
  | zero => simp [forLoop_zero, gather]
  | succ j ih =>
    rw [forLoop_succ, ih (by omega)]
    have hsplit : n - j = (n - (j + 1)) + 1 := by omega
    simp only [materialStep, hsplit]
    rw [set_prefix_replicate _ j _ _ _ (by simp),
        set_prefix_replicate _ j _ _ _ (by simp)]
    simp [List.range_succ, gather, storedMaterial, storedTexture, stepEvents,
      List.append_assoc]

theorem materialLoop_closed (env : Env) (slot : Slot) (buffer : List D3DXMATERIAL)
    (n : Nat) :
    forLoop n (materialStep env slot buffer)
        { materials := List.replicate n default, textures := List.replicate n none,
          trace := [] } =
      { materials := (List.range n).map (storedMaterial slot buffer),
        textures := (List.range n).map (storedTexture env slot buffer),
        trace := gather (stepEvents env slot buffer) n } := by
  rw [materialLoop_upto env slot buffer n n (Nat.le_refl n)]
  simp

/-! ## The blocks of InitGeometry -/

theorem loadMeshFile_fst (env : Env) (file parent message : String) :
    (loadMeshFile env file parent message).1 = loadedFile env file parent := by
  unfold loadMeshFile loadedFile
  cases h1 : env.D3DXLoadMeshFromX file with
  | some x => simp
  | none => cases h2 : env.D3DXLoadMeshFromX parent <;> simp

theorem loadMeshFile_none (env : Env) (file parent message : String)
    (h : loadedFile env file parent = none) :
    loadMeshFile env file parent message =
      (none, [.D3DXLoadMeshFromX file false, .D3DXLoadMeshFromX parent false,
              .MessageBox message]) := by
  unfold loadedFile at h
  unfold loadMeshFile
  cases h1 : env.D3DXLoadMeshFromX file with
  | some x => simp [h1] at h
  | none =>
    rw [h1] at h
    simp only at h
    simp [h]

theorem loadMeshFile_some (env : Env) (file parent message : String) (x : XFile)
    (h : loadedFile env file parent = some x) :
    loadMeshFile env file parent message =
      (some x,
        if (env.D3DXLoadMeshFromX file).isSome then [.D3DXLoadMeshFromX file true]
        else [.D3DXLoadMeshFromX file false, .D3DXLoadMeshFromX parent true]) := by
  unfold loadedFile at h
  unfold loadMeshFile
  cases h1 : env.D3DXLoadMeshFromX file with
  | some y =>
    rw [h1] at h
    simp only [Option.some.injEq] at h
    simp [h]
  | none =>
    rw [h1] at h
    simp only at h
    simp [h]

theorem loadGeometry_none (env : Env) (slot : Slot) (file parent message : String)
    (old : MeshData) (h : loadedFile env file parent = none) :
    loadGeometry env slot file parent message old =
      (.E_FAIL, old,
        [.D3DXLoadMeshFromX file false, .D3DXLoadMeshFromX parent false,
         .MessageBox message]) := by
  unfold loadGeometry
  rw [loadMeshFile_none env file parent message h]

theorem loadGeometry_ok (env : Env) (slot : Slot) (file parent message : String)
    (old : MeshData) (x : XFile) (h : loadedFile env file parent = some x)
    (hm : env.operatorNew (.materials slot) = true)
    (ht : env.operatorNew (.textures slot) = true) :
    loadGeometry env slot file parent message old =
      (.S_OK, blockData env slot x, blockTrace env slot file parent message x) := by
  have h1 := loadMeshFile_fst env file parent message
  rw [h] at h1
  unfold loadGeometry blockData blockTrace
  rcases hl : loadMeshFile env file parent message with ⟨o, ev⟩
  rw [hl] at h1
  simp only at h1
  subst h1
  simp [hm, ht, materialLoop_closed]

theorem loadGeometry_oom (env : Env) (slot : Slot) (file parent message : String)
    (old : MeshData) (x : XFile) (h : loadedFile env file parent = some x)
    (ha : ¬ (env.operatorNew (.materials slot) = true ∧
             env.operatorNew (.textures slot) = true)) :
    (loadGeometry env slot file parent message old).1 = .E_OUTOFMEMORY ∧
    (loadGeometry env slot file parent message old).2.2 =
      (loadMeshFile env file parent message).2 ++
      (ensureNormals slot { obj := .mesh slot, fvf := x.fvf }).2 := by
  have h1 := loadMeshFile_fst env file parent message
  rw [h] at h1
  unfold loadGeometry
  rcases hl : loadMeshFile env file parent message with ⟨o, ev⟩
  rw [hl] at h1
  simp only at h1
  subst h1
  cases hm : env.operatorNew (.materials slot) with
  | false => simp
  | true =>
    cases ht : env.operatorNew (.textures slot) with
    | false => simp
    | true => simp [hm, ht] at ha

/-! ## The five ways through InitGeometry -/

theorem InitGeometry_fail1 (env : Env) (g : Globals)
    (h1 : loadedFile env "Tiger.x" "..\\Tiger.x" = none) :
    InitGeometry env g =
      (.E_FAIL, g.setFirst g.first,
        [.enter .InitGeometry, .D3DXLoadMeshFromX "Tiger.x" false,
         .D3DXLoadMeshFromX "..\\Tiger.x" false,
         .MessageBox "Could not find tiger.x"]) := by
  unfold InitGeometry
  rw [loadGeometry_none env _ _ _ _ _ h1]
  rfl

theorem InitGeometry_oom1 (env : Env) (g : Globals) (x1 : XFile)
    (h1 : loadedFile env "Tiger.x" "..\\Tiger.x" = some x1)
    (ha : ¬ (env.operatorNew (.materials .first) = true ∧
             env.operatorNew (.textures .first) = true)) :
    (InitGeometry env g).1 = .E_OUTOFMEMORY ∧
    (InitGeometry env g).2.2 =
      [.enter .InitGeometry] ++
      ((loadMeshFile env "Tiger.x" "..\\Tiger.x" "Could not find tiger.x").2 ++
       (ensureNormals .first { obj := .mesh .first, fvf := x1.fvf }).2) := by
  have h := loadGeometry_oom env .first "Tiger.x" "..\\Tiger.x" "Could not find tiger.x"
    g.first x1 h1 ha
  unfold InitGeometry
  rcases hl : loadGeometry env .first "Tiger.x" "..\\Tiger.x" "Could not find tiger.x"
    g.first with ⟨hr, d, tr⟩
  rw [hl] at h
  simp only at h
  obtain ⟨hhr, htr⟩ := h
  subst hhr
  simp [htr]

theorem InitGeometry_fail2 (env : Env) (g : Globals) (x1 : XFile)
    (h1 : loadedFile env "Tiger.x" "..\\Tiger.x" = some x1)
    (hm : env.operatorNew (.materials .first) = true)
    (ht : env.operatorNew (.textures .first) = true)
    (h2 : loadedFile env "Tiger2.x" "..\\Tiger2.x" = none) :
    InitGeometry env g =
      (.E_FAIL,
        (g.setFirst (blockData env .first x1)).setSecond
          (g.setFirst (blockData env .first x1)).second,
        [.enter .InitGeometry] ++
        blockTrace env .first "Tiger.x" "..\\Tiger.x" "Could not find tiger.x" x1 ++
        [.D3DXLoadMeshFromX "Tiger2.x" false, .D3DXLoadMeshFromX "..\\Tiger2.x" false,
         .MessageBox "Could not find tiger2.x"]) := by
  unfold InitGeometry
  rw [loadGeometry_ok env _ _ _ _ _ x1 h1 hm ht]
  simp only
  rw [loadGeometry_none env _ _ _ _ _ h2]

theorem InitGeometry_oom2 (env : Env) (g : Globals) (x1 x2 : XFile)
    (h1 : loadedFile env "Tiger.x" "..\\Tiger.x" = some x1)
    (hm : env.operatorNew (.materials .first) = true)
    (ht : env.operatorNew (.textures .first) = true)
    (h2 : loadedFile env "Tiger2.x" "..\\Tiger2.x" = some x2)
    (ha : ¬ (env.operatorNew (.materials .second) = true ∧
             env.operatorNew (.textures .second) = true)) :
    (InitGeometry env g).1 = .E_OUTOFMEMORY ∧
    (InitGeometry env g).2.2 =
      [.enter .InitGeometry] ++
      blockTrace env .first "Tiger.x" "..\\Tiger.x" "Could not find tiger.x" x1 ++
      ((loadMeshFile env "Tiger2.x" "..\\Tiger2.x" "Could not find tiger2.x").2 ++
       (ensureNormals .second { obj := .mesh .second, fvf := x2.fvf }).2) := by
  unfold InitGeometry
  rw [loadGeometry_ok env _ _ _ _ _ x1 h1 hm ht]
  simp only
  have h := loadGeometry_oom env .second "Tiger2.x" "..\\Tiger2.x"
    "Could not find tiger2.x" (g.setFirst (blockData env .first x1)).second x2 h2 ha
  exact ⟨h.1, by rw [h.2]⟩

theorem InitGeometry_ok (env : Env) (g : Globals) (x1 x2 : XFile)
    (h1 : loadedFile env "Tiger.x" "..\\Tiger.x" = some x1)
    (hm : env.operatorNew (.materials .first) = true)
    (ht : env.operatorNew (.textures .first) = true)
    (h2 : loadedFile env "Tiger2.x" "..\\Tiger2.x" = some x2)
    (hm2 : env.operatorNew (.materials .second) = true)
    (ht2 : env.operatorNew (.textures .second) = true) :
    InitGeometry env g =
      (.S_OK,
        (g.setFirst (blockData env .first x1)).setSecond (blockData env .second x2),
        [.enter .InitGeometry] ++
        blockTrace env .first "Tiger.x" "..\\Tiger.x" "Could not find tiger.x" x1 ++
        blockTrace env .second "Tiger2.x" "..\\Tiger2.x" "Could not find tiger2.x" x2) := by
  unfold InitGeometry
  rw [loadGeometry_ok env _ _ _ _ _ x1 h1 hm ht]
  simp only
  rw [loadGeometry_ok env _ _ _ _ _ x2 h2 hm2 ht2]

/-- A successful `InitGeometry` went the fifth way. -/
theorem InitGeometry_success (env : Env) (g : Globals)
    (hok : (InitGeometry env g).1 = .S_OK) :
    ∃ x1 x2, loadedFile env "Tiger.x" "..\\Tiger.x" = some x1 ∧
      loadedFile env "Tiger2.x" "..\\Tiger2.x" = some x2 ∧
      InitGeometry env g =
        (.S_OK,
          (g.setFirst (blockData env .first x1)).setSecond (blockData env .second x2),
          [.enter .InitGeometry] ++
          blockTrace env .first "Tiger.x" "..\\Tiger.x" "Could not find tiger.x" x1 ++
          blockTrace env .second "Tiger2.x" "..\\Tiger2.x" "Could not find tiger2.x" x2) := by
  cases h1 : loadedFile env "Tiger.x" "..\\Tiger.x" with
  | none => rw [InitGeometry_fail1 env g h1] at hok; simp at hok
  | some x1 =>
    by_cases ha : env.operatorNew (.materials .first) = true ∧
        env.operatorNew (.textures .first) = true
    · cases h2 : loadedFile env "Tiger2.x" "..\\Tiger2.x" with
      | none => rw [InitGeometry_fail2 env g x1 h1 ha.1 ha.2 h2] at hok; simp at hok
      | some x2 =>
        by_cases hb : env.operatorNew (.materials .second) = true ∧
            env.operatorNew (.textures .second) = true
        · exact ⟨x1, x2, rfl, rfl, InitGeometry_ok env g x1 x2 h1 ha.1 ha.2 h2 hb.1 hb.2⟩
        · rw [(InitGeometry_oom2 env g x1 x2 h1 ha.1 ha.2 h2 hb).1] at hok; simp at hok
    · rw [(InitGeometry_oom1 env g x1 h1 ha).1] at hok; simp at hok

/-! ## What a block leaves in a trace -/

theorem strcpy_s_parent : strcpy_s MAX_PATH "..\\" = ("..\\", []) := by decide

theorem parentTextureName_eq (file : String) :
    parentTextureName file = strcat_s "..\\" MAX_PATH file := by
  unfold parentTextureName
  rw [strcpy_s_parent]
  simp

theorem parentTextureName_fits (file : String) (h : file.length + 4 ≤ MAX_PATH) :
    parentTextureName file = ("..\\" ++ file, []) := by
  rw [parentTextureName_eq]
  unfold strcat_s
  have h3 : "..\\".length = 3 := by decide
  rw [if_pos (by omega)]

theorem boxes_append (a b : List Event) : boxes (a ++ b) = boxes a ++ boxes b := by
  simp [boxes, List.filterMap_append]

theorem textureLog_append (a b : List Event) :
    textureLog (a ++ b) = textureLog a ++ textureLog b := by
  simp [textureLog, List.filter_append]

theorem materialsCopied_blockData (env : Env) (slot : Slot) (x : XFile) :
    MaterialsCopied x (blockData env slot x) := by
  refine ⟨rfl, _, _, rfl, rfl, by simp, by simp, ?_⟩
  intro i m hi hm
  refine ⟨storedMaterial slot x.materials i, ?_, ?_⟩
  · rw [List.getElem?_map, List.getElem?_range hi]
    rfl
  · simp [storedMaterial, readMaterial, hm]

/-! ## The claims -/

/-- C2: after a successful `InitGeometry`, after the frames of any list `frames`
(whatever `BeginScene` answers in each) the pair of texture pointers is the pair
`InitGeometry` built when the number of frames is even and that pair exchanged when
it is odd; the two pointers of the pair are different; and a call of `Render`
changes no other global. -/
theorem c2_texture_pointers_alternate (env : Env) (g0 : Globals) (frames : List Frame)
    (hok : (InitGeometry env g0).1 = .S_OK) :
    ((renderFrames frames (InitGeometry env g0).2.1).g_pMeshTextures,
     (renderFrames frames (InitGeometry env g0).2.1).g_pMeshTextures2) =
      (if frames.length % 2 = 0 then
        ((InitGeometry env g0).2.1.g_pMeshTextures, (InitGeometry env g0).2.1.g_pMeshTextures2)
       else
        ((InitGeometry env g0).2.1.g_pMeshTextures2, (InitGeometry env g0).2.1.g_pMeshTextures)) ∧
    (InitGeometry env g0).2.1.g_pMeshTextures ≠ (InitGeometry env g0).2.1.g_pMeshTextures2 ∧
    ∀ (frame : Frame) (g : Globals),
      (Render frame g).1.g_pMeshMaterials = g.g_pMeshMaterials ∧
      (Render frame g).1.g_pMeshMaterials2 = g.g_pMeshMaterials2 ∧
      (Render frame g).1.g_dwNumMaterials = g.g_dwNumMaterials ∧
      (Render frame g).1.g_dwNumMaterials2 = g.g_dwNumMaterials2 ∧
      (Render frame g).1.g_pMesh = g.g_pMesh ∧
      (Render frame g).1.g_pMesh2 = g.g_pMesh2 ∧
      (Render frame g).1.g_pMeshTextures = g.g_pMeshTextures2 ∧
      (Render frame g).1.g_pMeshTextures2 = g.g_pMeshTextures := by
  refine ⟨?_, ?_, ?_⟩
  · rw [renderFrames_spec]
    split <;> rfl
  · obtain ⟨x1, x2, _, _, heq⟩ := InitGeometry_success env g0 hok
    rw [heq]
    simp [Globals.setFirst, Globals.setSecond, blockData]
  · intro frame g
    rw [Render_globals]
    simp

/-- C2 at a concrete input: three frames, the second without a scene. -/
theorem c2_texture_pointers_alternate_witness :
    (InitGeometry sampleEnv initialGlobals).1 = .S_OK ∧
    (renderFrames [sampleFrame, lostFrame, sampleFrame]
        (InitGeometry sampleEnv initialGlobals).2.1).g_pMeshTextures =
      (InitGeometry sampleEnv initialGlobals).2.1.g_pMeshTextures2 :=
  ⟨by decide,
   congrArg Prod.fst
     (c2_texture_pointers_alternate sampleEnv initialGlobals
       [sampleFrame, lostFrame, sampleFrame] (by decide)).1⟩

/-- C5: after a successful `InitGeometry` each mesh was loaded from a file, and for
each mesh the stored count is the count the loader reported, the material and the
texture array have exactly that many entries, and stored material `i` has the
diffuse, specular and emissive colours and the power of entry `i` of the material
buffer and its diffuse colour as ambient colour. -/
theorem c5_materials_copied (env : Env) (g : Globals)
    (hok : (InitGeometry env g).1 = .S_OK) :
    ∃ x1 x2,
      loadedFile env "Tiger.x" "..\\Tiger.x" = some x1 ∧
      loadedFile env "Tiger2.x" "..\\Tiger2.x" = some x2 ∧
      MaterialsCopied x1 (InitGeometry env g).2.1.first ∧
      MaterialsCopied x2 (InitGeometry env g).2.1.second := by
  obtain ⟨x1, x2, h1, h2, heq⟩ := InitGeometry_success env g hok
  refine ⟨x1, x2, h1, h2, ?_, ?_⟩
  · rw [heq]
    exact materialsCopied_blockData env .first x1
  · rw [heq]
    exact materialsCopied_blockData env .second x2

/-- C5 at a concrete input. -/
theorem c5_materials_copied_witness :
    (InitGeometry sampleEnv initialGlobals).1 = .S_OK ∧
    ∃ x1 x2,
      loadedFile sampleEnv "Tiger.x" "..\\Tiger.x" = some x1 ∧
      loadedFile sampleEnv "Tiger2.x" "..\\Tiger2.x" = some x2 ∧
      MaterialsCopied x1 (InitGeometry sampleEnv initialGlobals).2.1.first ∧
      MaterialsCopied x2 (InitGeometry sampleEnv initialGlobals).2.1.second :=
  ⟨by decide, c5_materials_copied sampleEnv initialGlobals (by decide)⟩

theorem boxes_ensureNormals (slot : Slot) (m : Mesh) :
    boxes (ensureNormals slot m).2 = [] := by
  unfold ensureNormals
  split <;> simp [boxes]

theorem boxes_loadMeshFile_some (env : Env) (file parent message : String) (x : XFile)
    (h : loadedFile env file parent = some x) :
    boxes (loadMeshFile env file parent message).2 = [] := by
  rw [loadMeshFile_some env file parent message x h]
  simp only
  split <;> simp [boxes]

set_option maxRecDepth 1000000 in
/-- C4 fails for a long file name: the first load of `longName` fails and no load
is attempted with `"..\\"` put before that name. -/
theorem c4_long_name_counterexample :
    Event.D3DXCreateTextureFromFileA longName false ∈
      (InitGeometry longNameEnv initialGlobals).2.2 ∧
    Event.D3DXCreateTextureFromFileA ("..\\" ++ longName) false ∉
      (InitGeometry longNameEnv initialGlobals).2.2 ∧
    Event.D3DXCreateTextureFromFileA ("..\\" ++ longName) true ∉
      (InitGeometry longNameEnv initialGlobals).2.2 := by
  decide

/-! ## Texture loads -/

theorem gather_congr (f h : Nat → List Event) (n : Nat) (hfh : ∀ i, i < n → f i = h i) :
    gather f n = gather h n := by
  induction n with
  | zero => rfl
  | succ k ih =>
    simp only [gather]
    rw [ih (fun i hi => hfh i (Nat.lt_succ_of_lt hi)), hfh k (Nat.lt_succ_self k)]

theorem textureLog_gather (f : Nat → List Event) (n : Nat) :
    textureLog (gather f n) = gather (fun i => textureLog (f i)) n := by
  induction n with
  | zero => rfl
  | succ k ih => simp only [gather, textureLog_append, ih]

theorem textureLog_loadMeshFile_some (env : Env) (file parent message : String) (x : XFile)
    (h : loadedFile env file parent = some x) :
    textureLog (loadMeshFile env file parent message).2 = [] := by
  rw [loadMeshFile_some env file parent message x h]
  simp only
  split <;> simp [textureLog]

theorem textureLog_ensureNormals (slot : Slot) (m : Mesh) :
    textureLog (ensureNormals slot m).2 = [] := by
  unfold ensureNormals
  split <;> simp [textureLog]

theorem readMaterial_name (slot : Slot) (x : XFile) (i : Nat) :
    (readMaterial slot x.materials i).1.pTextureFilename = x.textureName i := by
  unfold readMaterial XFile.textureName
  cases h : x.materials[i]? with
  | some m => simp
  | none => rfl

theorem textureLog_readMaterial (slot : Slot) (buffer : List D3DXMATERIAL) (i : Nat) :
    textureLog (readMaterial slot buffer i).2 = [] := by
  unfold readMaterial
  cases h : buffer[i]? <;> simp [textureLog]

theorem loadTexture_fits (env : Env) (slot : Slot) (i : Nat) (name : Option String)
    (hfit : ∀ file, name = some file → file.length + 4 ≤ MAX_PATH) :
    loadTexture env slot i name = (textureCell env slot i name, textureAttempts env name) := by
  cases name with
  | none => rfl
  | some file =>
    have hp := parentTextureName_fits file (hfit file rfl)
    unfold loadTexture textureCell textureAttempts
    simp only [hp]
    by_cases h0 : file.length = 0
    · simp [h0]
    · have hpos : file.length > 0 := Nat.pos_of_ne_zero h0
      simp only [hpos, h0, if_true, if_false]
      cases ht : env.D3DXCreateTextureFromFileA file with
      | true => simp
      | false =>
        cases ht2 : env.D3DXCreateTextureFromFileA ("..\\" ++ file) <;> simp

theorem textureLog_textureAttempts (env : Env) (name : Option String) :
    textureLog (textureAttempts env name) = textureAttempts env name := by
  unfold textureAttempts
  cases name with
  | none => rfl
  | some file =>
    simp only
    split
    · rfl
    · split
      · simp [textureLog]
      · split <;> simp [textureLog]

theorem name_fits_of_mem (x : XFile) (i : Nat)
    (hfit : ∀ m ∈ x.materials, ∀ file, m.pTextureFilename = some file →
      file.length + 4 ≤ MAX_PATH) :
    ∀ file, x.textureName i = some file → file.length + 4 ≤ MAX_PATH := by
  intro file hname
  unfold XFile.textureName at hname
  cases hm : x.materials[i]? with
  | none => simp [hm] at hname
  | some m =>
    rw [hm] at hname
    exact hfit m (List.getElem?_mem hm) file hname

theorem textureLog_blockTrace (env : Env) (slot : Slot)
    (file parent message : String) (x : XFile)
    (h : loadedFile env file parent = some x)
    (hfit : ∀ m ∈ x.materials, ∀ file, m.pTextureFilename = some file →
      file.length + 4 ≤ MAX_PATH) :
    textureLog (blockTrace env slot file parent message x) =
      gather (fun i => textureAttempts env (x.textureName i)) x.numMaterials := by
  unfold blockTrace
  simp only [textureLog_append, textureLog_loadMeshFile_some env file parent message x h,
    textureLog_ensureNormals, textureLog_gather]
  have hstep : ∀ i, textureLog (stepEvents env slot x.materials i) =
      textureAttempts env (x.textureName i) := by
    intro i
    unfold stepEvents
    rw [textureLog_append, textureLog_readMaterial, readMaterial_name,
      loadTexture_fits env slot i _ (name_fits_of_mem x i hfit)]
    simp [textureLog_textureAttempts]
  simp only [hstep]
  simp [textureLog]

theorem storedTexture_fits (env : Env) (slot : Slot) (x : XFile) (i : Nat)
    (hfit : ∀ m ∈ x.materials, ∀ file, m.pTextureFilename = some file →
      file.length + 4 ≤ MAX_PATH) :
    storedTexture env slot x.materials i = textureCell env slot i (x.textureName i) := by
  unfold storedTexture
  rw [readMaterial_name, loadTexture_fits env slot i _ (name_fits_of_mem x i hfit)]

/-- C4, amended: when both mesh files load, every allocation succeeds and every
texture file name has at most `MAX_PATH - 4` characters, `InitGeometry` returns
`S_OK` whatever happens to the textures, its texture calls are, material after
material and mesh after mesh, exactly those of `textureAttempts` (none for a null
or empty name; the name as given; `"..\\"` before the name only after a failure;
the message box only after two failures), and texture cell `i` of each mesh holds
what `textureCell` says (`NULL` for a null or empty name). -/
theorem c4_texture_loads (env : Env) (g : Globals) (x1 x2 : XFile)
    (h1 : loadedFile env "Tiger.x" "..\\Tiger.x" = some x1)
    (h2 : loadedFile env "Tiger2.x" "..\\Tiger2.x" = some x2)
    (halloc : ∀ site, env.operatorNew site = true)
    (hfit : ∀ m ∈ x1.materials ++ x2.materials, ∀ file,
      m.pTextureFilename = some file → file.length + 4 ≤ MAX_PATH) :
    (InitGeometry env g).1 = .S_OK ∧
    textureLog (InitGeometry env g).2.2 =
      gather (fun i => textureAttempts env (x1.textureName i)) x1.numMaterials ++
      gather (fun i => textureAttempts env (x2.textureName i)) x2.numMaterials ∧
    ∃ t1 t2,
      (InitGeometry env g).2.1.g_pMeshTextures = some t1 ∧
      (InitGeometry env g).2.1.g_pMeshTextures2 = some t2 ∧
      (∀ i, i < x1.numMaterials →
        t1.cells[i]? = some (textureCell env .first i (x1.textureName i))) ∧
      (∀ i, i < x2.numMaterials →
        t2.cells[i]? = some (textureCell env .second i (x2.textureName i))) := by
  have hfit1 : ∀ m ∈ x1.materials, ∀ file, m.pTextureFilename = some file →
      file.length + 4 ≤ MAX_PATH :=
    fun m hm => hfit m (List.mem_append.mpr (Or.inl hm))
  have hfit2 : ∀ m ∈ x2.materials, ∀ file, m.pTextureFilename = some file →
      file.length + 4 ≤ MAX_PATH :=
    fun m hm => hfit m (List.mem_append.mpr (Or.inr hm))
  rw [InitGeometry_ok env g x1 x2 h1 (halloc _) (halloc _) h2 (halloc _) (halloc _)]
  refine ⟨rfl, ?_, _, _, rfl, rfl, ?_, ?_⟩
  · simp only [textureLog_append, textureLog_blockTrace env _ _ _ _ _ h1 hfit1,
      textureLog_blockTrace env _ _ _ _ _ h2 hfit2]
    simp [textureLog]
  · intro i hi
    simp only [blockData]
    rw [List.getElem?_map, List.getElem?_range hi]
    simp [storedTexture_fits env .first x1 i hfit1]
  · intro i hi
    simp only [blockData]
    rw [List.getElem?_map, List.getElem?_range hi]
    simp [storedTexture_fits env .second x2 i hfit2]

/-! ## The calls of Render -/

theorem forLoop_draw (A : Nat → List Event) (D : Nat → Event) (n : Nat) :
    forLoop n (fun i tr => tr ++ A i ++ [D i]) [] = gather (fun i => A i ++ [D i]) n := by
  have h : (fun (i : Nat) (tr : List Event) => tr ++ A i ++ [D i]) =
      (fun i tr => tr ++ (A i ++ [D i])) := by
    funext i tr
    rw [List.append_assoc]
  rw [h, forLoop_trace]
  rfl

/-- The calls of a frame in which `BeginScene` succeeds. -/
theorem Render_scene (frame : Frame) (g : Globals) (h : frame.BeginScene = true) :
    (Render frame g).2 =
      ([.enter .Render, .Clear, .BeginScene true] ++ SetupMatrices (frame.timeGetTime 0)) ++
      SetupLights (fun k => frame.timeGetTime (k + 1)) ++
      (gather (fun i =>
          setSubsetState .g_pMeshMaterials .g_pMeshTextures
            g.g_pMeshMaterials g.g_pMeshTextures i ++
          [.DrawSubset (g.g_pMesh.map Mesh.obj) i]) g.g_dwNumMaterials ++
       [.SetTransform .D3DTS_WORLD (.translation 1 0 0)] ++
       gather (fun i =>
          setSubsetState .g_pMeshMaterials2 .g_pMeshTextures2
            g.g_pMeshMaterials2 g.g_pMeshTextures2 i ++
          [.DrawSubset (g.g_pMesh.map Mesh.obj) i]) g.g_dwNumMaterials2 ++
       [.EndScene, .Present]) := by
  simp only [Render, h, if_true, forLoop_draw]
  simp [List.append_assoc]

theorem Render_no_scene (frame : Frame) (g : Globals) (h : frame.BeginScene = false) :
    (Render frame g).2 = [.enter .Render, .Clear, .BeginScene false, .Present] := by
  simp [Render, h]

theorem setSubsetState_events (a b : ArrayName) (ms : Option (List D3DMATERIAL9))
    (ts : Option TextureArray) (i : Nat) :
    ∀ e ∈ setSubsetState a b ms ts i,
      (∃ m, e = .SetMaterial m) ∨ (∃ t, e = .SetTexture 0 t) ∨
      (∃ n, e = .outOfBounds n i) := by
  intro e he
  unfold setSubsetState at he
  rcases List.mem_append.mp he with h | h
  · cases hr : readAt ms i with
    | some m => simp [hr] at h; exact Or.inl ⟨_, h⟩
    | none => simp [hr] at h; exact Or.inr (Or.inr ⟨_, h⟩)
  · cases hr : readAt (ts.map TextureArray.cells) i with
    | some t => simp [hr] at h; exact Or.inr (Or.inl ⟨_, h⟩)
    | none => simp [hr] at h; exact Or.inr (Or.inr ⟨_, h⟩)

theorem subset_loop_quiet {β : Type} (p : Event → Option β)
    (hm : ∀ m, p (.SetMaterial m) = none) (ht : ∀ t, p (.SetTexture 0 t) = none)
    (ho : ∀ n i, p (.outOfBounds n i) = none) (hd : ∀ m i, p (.DrawSubset m i) = none)
    (a b : ArrayName) (ms : Option (List D3DMATERIAL9)) (ts : Option TextureArray)
    (mesh : Option Obj) (n : Nat) :
    (gather (fun i => setSubsetState a b ms ts i ++ [.DrawSubset mesh i]) n).filterMap p
      = [] := by
  apply filterMap_gather
  intro i
  rw [List.filterMap_eq_nil_iff]
  intro e he
  rcases List.mem_append.mp he with h | h
  · rcases setSubsetState_events a b ms ts i e h with ⟨m, rfl⟩ | ⟨t, rfl⟩ | ⟨n, rfl⟩
    · exact hm m
    · exact ht t
    · exact ho n i
  · simp at h
    subst h
    exact hd mesh i

theorem enter_not_in_subset_loop (f : Fn) (a b : ArrayName)
    (ms : Option (List D3DMATERIAL9)) (ts : Option TextureArray)
    (mesh : Option Obj) (n : Nat) :
    Event.enter f ∉ gather (fun i => setSubsetState a b ms ts i ++ [.DrawSubset mesh i]) n := by
  intro he
  obtain ⟨i, _, hi⟩ := mem_gather.mp he
  rcases List.mem_append.mp hi with h | h
  · rcases setSubsetState_events a b ms ts i _ h with ⟨m, hm⟩ | ⟨t, hm⟩ | ⟨n, hm⟩ <;>
      cases hm
  · simp at h

theorem lightsSet_append (a b : List Event) :
    lightsSet (a ++ b) = lightsSet a ++ lightsSet b := by
  simp [lightsSet, List.filterMap_append]

theorem lightsEnabled_append (a b : List Event) :
    lightsEnabled (a ++ b) = lightsEnabled a ++ lightsEnabled b := by
  simp [lightsEnabled, List.filterMap_append]

theorem draws_append (a b : List Event) : draws (a ++ b) = draws a ++ draws b := by
  simp [draws, List.filterMap_append]

/-- C7: `SetupLights` sets two lights, with the indices 0 and 1, both of type
`D3DLIGHT_DIRECTIONAL`, and enables the lights 0 and 1 and no other; in a frame in
which `BeginScene` succeeds the calls of `Render` are some calls, then those of one
call of `SetupLights`, then some calls, where the calls before contain no
`DrawSubset`, and neither the calls before nor those after contain another call of
`SetupLights`, a `SetLight` or a `LightEnable`. -/
theorem c7_two_directional_lights (time : Nat → Nat) (frame : Frame) (g : Globals) :
    (lightsSet (SetupLights time)).map (fun p => (p.1, p.2.Type_)) =
      [(0, .D3DLIGHT_DIRECTIONAL), (1, .D3DLIGHT_DIRECTIONAL)] ∧
    lightsEnabled (SetupLights time) = [(0, true), (1, true)] ∧
    (frame.BeginScene = true →
      ∃ before after,
        (Render frame g).2 =
          before ++ SetupLights (fun k => frame.timeGetTime (k + 1)) ++ after ∧
        draws before = [] ∧
        Event.enter .SetupLights ∉ before ∧ lightsSet before = [] ∧
        lightsEnabled before = [] ∧
        Event.enter .SetupLights ∉ after ∧ lightsSet after = [] ∧
        lightsEnabled after = []) := by
  refine ⟨by simp [SetupLights, lightsSet, directionalLight],
          by simp [SetupLights, lightsEnabled], ?_⟩
  intro h
  refine ⟨_, _, Render_scene frame g h, ?_, ?_, ?_, ?_, ?_, ?_, ?_⟩
  · simp [draws, SetupMatrices]
  · simp [SetupMatrices]
  · simp [lightsSet, SetupMatrices]
  · simp [lightsEnabled, SetupMatrices]
  · simp only [List.mem_append, not_or]
    exact ⟨⟨⟨enter_not_in_subset_loop _ _ _ _ _ _ _, by simp⟩,
      enter_not_in_subset_loop _ _ _ _ _ _ _⟩, by simp⟩
  · simp only [lightsSet_append]
    unfold lightsSet
    rw [subset_loop_quiet _ (fun _ => rfl) (fun _ => rfl) (fun _ _ => rfl) (fun _ _ => rfl),
      subset_loop_quiet _ (fun _ => rfl) (fun _ => rfl) (fun _ _ => rfl) (fun _ _ => rfl)]
    simp
  · simp only [lightsEnabled_append]
    unfold lightsEnabled
    rw [subset_loop_quiet _ (fun _ => rfl) (fun _ => rfl) (fun _ _ => rfl) (fun _ _ => rfl),
      subset_loop_quiet _ (fun _ => rfl) (fun _ => rfl) (fun _ _ => rfl) (fun _ _ => rfl)]
    simp

/-! ## wWinMain -/

/-- C4 at a concrete input: the two mesh files of `sampleEnv`. -/
theorem c4_texture_loads_witness :
    loadedFile sampleEnv "Tiger.x" "..\\Tiger.x" = some sampleTiger ∧
    loadedFile sampleEnv "Tiger2.x" "..\\Tiger2.x" = some sampleTiger2 ∧
    (InitGeometry sampleEnv initialGlobals).1 = .S_OK ∧
    textureLog (InitGeometry sampleEnv initialGlobals).2.2 =
      gather (fun i => textureAttempts sampleEnv (sampleTiger.textureName i))
        sampleTiger.numMaterials ++
      gather (fun i => textureAttempts sampleEnv (sampleTiger2.textureName i))
        sampleTiger2.numMaterials :=
  ⟨by decide, by decide,
   (c4_texture_loads sampleEnv initialGlobals sampleTiger sampleTiger2
      (by decide) (by decide) (fun _ => rfl) (by decide)).1,
   (c4_texture_loads sampleEnv initialGlobals sampleTiger sampleTiger2
      (by decide) (by decide) (fun _ => rfl) (by decide)).2.1⟩

/-- C1 at the failing input: in a frame with a scene, after `InitGeometry` loaded
two different meshes, the second with one material, every `DrawSubset` of `Render`
is made on the first mesh and none on the second. -/
theorem c1_second_mesh_never_drawn :
    sampleFrame.BeginScene = true ∧
    sampleGlobals.g_pMesh = some { obj := .clone .first, fvf := 0x112 } ∧
    sampleGlobals.g_pMesh2 = some { obj := .mesh .second, fvf := 0x112 } ∧
    sampleGlobals.g_dwNumMaterials = 2 ∧
    sampleGlobals.g_dwNumMaterials2 = 1 ∧
    draws (Render sampleFrame sampleGlobals).2 =
      [(some (.clone .first), 0), (some (.clone .first), 1), (some (.clone .first), 0)] := by
  decide

/-- C9 at the failing input: after `InitGeometry` loaded a mesh with two materials
and a mesh with one, the texture arrays have as many entries as the counts say and
the first frame reads inside them; after that frame they do not, and the second
frame reads `g_pMeshTextures[1]` in an array of one entry. -/
theorem c9_swapped_array_read_past_end :
    (InitGeometry sampleEnv (InitD3D sampleEnv initialGlobals).2.1).1 = .S_OK ∧
    texturesMatchCounts sampleGlobals = true ∧
    badReads (Render sampleFrame sampleGlobals).2 = [] ∧
    texturesMatchCounts (Render sampleFrame sampleGlobals).1 = false ∧
    (Render sampleFrame sampleGlobals).1.g_dwNumMaterials = 2 ∧
    (Render sampleFrame sampleGlobals).1.g_pMeshTextures =
      some { site := .second, cells := [some (.texture .second 0)] } ∧
    badReads (Render sampleFrame (Render sampleFrame sampleGlobals).1).2 =
      [(.g_pMeshTextures, 1)] := by
  decide

/-- C10 at the failing input: `InitGeometry` created the textures 0 and 1 of the
first mesh and texture 0 of the second; `Cleanup` called right away releases each
of them once, but called after one frame it reads `g_pMeshTextures[1]` in an array
of one entry and never releases texture 1 of the first mesh. -/
theorem c10_cleanup_after_one_frame :
    sampleGlobals.g_pMeshTextures =
      some { site := .first,
             cells := [some (.texture .first 0), some (.texture .first 1)] } ∧
    sampleGlobals.g_pMeshTextures2 =
      some { site := .second, cells := [some (.texture .second 0)] } ∧
    released (Cleanup sampleGlobals) =
      [.texture .first 0, .texture .first 1, .texture .second 0,
       .clone .first, .mesh .second, .device, .d3d] ∧
    badReads (Cleanup sampleGlobals) = [] ∧
    released (Cleanup (Render sampleFrame sampleGlobals).1) =
      [.texture .second 0, .texture .first 0,
       .clone .first, .mesh .second, .device, .d3d] ∧
    badReads (Cleanup (Render sampleFrame sampleGlobals).1) = [(.g_pMeshTextures, 1)] := by
  decide

end Meshes
